import Mathlib

set_option linter.unusedVariables false

/-!
Verification of the cart-modifier core of django-shop
(file shop/modifiers/base.py) against its natural-language
specification.

The Python classes are shallowly embedded: the mutable cart and
cart-item objects become Lean structures, dictionary lookups become
association-list lookups, hook methods become pure functions that
return the updated object, and a method that always raises becomes a
function into Except.  The cart-update pipeline itself is not part of
the provided sources (only the modifier base classes are), so it is
modelled from the specification where a claim needs it.
-/

namespace DjangoShop

/-- The HTTP request object passed to every hook.  Opaque to the core:
the embedding carries it around without inspecting it. -/
structure Request where
  session : List (String × String) := []

/-- An ExtraCartRow attached to a cart or a cart item: a label, an
amount and opaque extra data. -/
structure ExtraRow where
  label : String
  amount : Int
  data : List (String × String) := []
deriving DecidableEq, Repr

/-- A line item of a cart: product reference (opaque to the core),
quantity, line total and the extra rows attached to it. -/
structure CartItem where
  product : String
  quantity : Nat
  line_total : Int := 0
  extra_rows : List ExtraRow := []
deriving DecidableEq, Repr

/-- The cart: ordered items, subtotal, total, the extra string
mapping (used e.g. for recording the selected payment and shipping
modifier) and cart-level extra rows. -/
structure Cart where
  items : List CartItem := []
  subtotal : Int := 0
  total : Int := 0
  extra : List (String × String) := []
  extra_rows : List ExtraRow := []
deriving DecidableEq, Repr

/-- Python dictionary get: first binding of the key in the
association list, none when the key is absent. -/
def dictGet (m : List (String × String)) (k : String) : Option String :=
  List.lookup k m

/-- Python equality between the result of dict.get (possibly None)
and a string: None compares unequal to every string. -/
def pyEqOpt (v : Option String) (s : String) : Bool :=
  match v with
  | none => false
  | some t => t == s

/-- State of a BaseCartModifier instance: its identifier. -/
structure BaseCartModifier where
  identifier : String
deriving DecidableEq, Repr

/-- Python str.lower on a class name: lower-cases every character. -/
def strLower (s : String) : String :=
  String.mk (s.data.map Char.toLower)

/-- Embeds the identifier computation of BaseCartModifier.__init__:
self.identifier = identifier or getattr(self, "identifier",
self.__class__.__name__.lower()).  The argument identifier is the
constructor parameter (none for Python None), class_attr is the
class-level identifier attribute when the implementing class defines
one (getattr finds it because the instance attribute is not yet set),
and class_name is self.__class__.__name__.  A supplied empty string
is falsy in Python, so it also falls through to the getattr result. -/
def init_identifier (identifier : Option String) (class_attr : Option String)
    (class_name : String) : String :=
  match identifier with
  | some s => if s = "" then class_attr.getD (strLower class_name) else s
  | none => class_attr.getD (strLower class_name)

/-- Names of the add-extra-row hooks, used to trace which hooks the
default process methods invoke. -/
inductive HookCall where
  | addExtraCartItemRow
  | addExtraCartRow
deriving DecidableEq, Repr

/-- Embeds the default BaseCartModifier.arrange_watch_items: returns
the watched item list unchanged. -/
def BaseCartModifier.arrange_watch_items {α : Type} (watch_items : List α)
    (request : Request) : List α :=
  watch_items

/-- Embeds the default BaseCartModifier.arrange_cart_items: returns
the cart item list unchanged. -/
def BaseCartModifier.arrange_cart_items {α : Type} (cart_items : List α)
    (request : Request) : List α :=
  cart_items

/-- Embeds the default BaseCartModifier.pre_process_cart: a pass
statement, so the cart is unchanged. -/
def BaseCartModifier.pre_process_cart (cart : Cart) (request : Request) : Cart :=
  cart

/-- Embeds the default BaseCartModifier.pre_process_cart_item: a pass
statement, so the item is unchanged. -/
def BaseCartModifier.pre_process_cart_item (cart : Cart) (item : CartItem)
    (request : Request) : CartItem :=
  item

/-- Embeds the default BaseCartModifier.add_extra_cart_item_row: a
pass statement.  The hook returns the (unchanged) item together with
the list of primitive actions it performed, which is empty. -/
def BaseCartModifier.add_extra_cart_item_row (cart_item : CartItem)
    (request : Request) : CartItem × List HookCall :=
  (cart_item, [])

/-- Embeds the default BaseCartModifier.add_extra_cart_row: a pass
statement.  The hook returns the (unchanged) cart together with the
list of primitive actions it performed, which is empty. -/
def BaseCartModifier.add_extra_cart_row (cart : Cart)
    (request : Request) : Cart × List HookCall :=
  (cart, [])

/-- Embeds the default BaseCartModifier.process_cart_item, whose body
is the single statement self.add_extra_cart_item_row(cart_item,
request).  The dynamically dispatched add_extra_cart_item_row of the
concrete subclass is passed as the function argument add_row; the
trace records this one invocation followed by the actions the hook
itself performs. -/
def BaseCartModifier.process_cart_item
    (add_row : CartItem → Request → CartItem × List HookCall)
    (cart_item : CartItem) (request : Request) : CartItem × List HookCall :=
  let r := add_row cart_item request
  (r.1, HookCall.addExtraCartItemRow :: r.2)

/-- Embeds the default BaseCartModifier.process_cart, whose body is
the single statement self.add_extra_cart_row(cart, request). -/
def BaseCartModifier.process_cart
    (add_row : Cart → Request → Cart × List HookCall)
    (cart : Cart) (request : Request) : Cart × List HookCall :=
  let r := add_row cart request
  (r.1, HookCall.addExtraCartRow :: r.2)

/-- Embeds the default BaseCartModifier.post_process_cart: a pass
statement, so the cart is unchanged. -/
def BaseCartModifier.post_process_cart (cart : Cart) (request : Request) : Cart :=
  cart

/-- A Python exception value.  Calling the constant NotImplemented
raises TypeError, and an unimplemented abstract method would raise
NotImplementedError. -/
inductive PyExc where
  | typeError (message : String)
  | notImplementedError (message : String)
deriving DecidableEq, Repr

/-- State of a PaymentModifier instance (inherits BaseCartModifier). -/
structure PaymentModifier extends BaseCartModifier
deriving DecidableEq, Repr

/-- State of a ShippingModifier instance (inherits BaseCartModifier). -/
structure ShippingModifier extends BaseCartModifier
deriving DecidableEq, Repr

/-- Embeds PaymentModifier.get_choice.  The body is the statement
raise NotImplemented("Must be implemented by the inheriting class");
evaluating the call NotImplemented(...) itself raises a TypeError
because NotImplemented is not callable, so the method always raises
and never returns a value. -/
def PaymentModifier.get_choice (self : PaymentModifier) :
    Except PyExc (String × String) :=
  Except.error (PyExc.typeError "NotImplementedType object is not callable")

/-- Embeds ShippingModifier.get_choice, with the same always-raising
body as PaymentModifier.get_choice. -/
def ShippingModifier.get_choice (self : ShippingModifier) :
    Except PyExc (String × String) :=
  Except.error (PyExc.typeError "NotImplementedType object is not callable")

/-- Embeds PaymentModifier.is_active: returns
cart.extra.get("payment_modifier") == self.identifier. -/
def PaymentModifier.is_active (self : PaymentModifier) (cart : Cart) : Bool :=
  pyEqOpt (dictGet cart.extra "payment_modifier") self.identifier

/-- Embeds ShippingModifier.is_active: returns
cart.extra.get("shipping_modifier") == self.identifier. -/
def ShippingModifier.is_active (self : ShippingModifier) (cart : Cart) : Bool :=
  pyEqOpt (dictGet cart.extra "shipping_modifier") self.identifier

/-- Embeds PaymentModifier.is_disabled: returns False. -/
def PaymentModifier.is_disabled (self : PaymentModifier) (cart : Cart) : Bool :=
  false

/-- Embeds ShippingModifier.is_disabled: returns False. -/
def ShippingModifier.is_disabled (self : ShippingModifier) (cart : Cart) : Bool :=
  false

/-- A value stored in the rendering context: either a nested string
dictionary (the namespaced sub-mapping the modifiers initialize) or a
plain string. -/
inductive CtxVal where
  | dict (entries : List (String × String))
  | str (s : String)
deriving DecidableEq, Repr

/-- The rendering context, a dictionary from string keys to values. -/
def Context : Type := String → Option CtxVal

/-- Embeds PaymentModifier.update_render_context: if the key
payment_modifiers is not in the context, bind it to an empty
dictionary; otherwise leave the context untouched. -/
def PaymentModifier.update_render_context (self : PaymentModifier)
    (context : Context) : Context :=
  if (context "payment_modifiers").isSome then context
  else fun k => if k = "payment_modifiers" then some (CtxVal.dict []) else context k

/-- Embeds ShippingModifier.update_render_context: if the key
shipping_modifiers is not in the context, bind it to an empty
dictionary; otherwise leave the context untouched. -/
def ShippingModifier.update_render_context (self : ShippingModifier)
    (context : Context) : Context :=
  if (context "shipping_modifiers").isSome then context
  else fun k => if k = "shipping_modifiers" then some (CtxVal.dict []) else context k

/-- Modelled from the spec: a registered cart modifier as seen by the
cart update pipeline of spec section 4.4.  The pipeline (the cart
update method of the surrounding project) is not among the provided
sources, so each hook is typed after the permissions the spec grants
its phase: the pre- and per-item hooks transform the cart or item,
process_cart may read the whole cart and yields the new total plus
extra rows to append (it may not touch items or subtotal), and
post_process_cart reacts to the settled cart by yielding an adjusted
total.  The request-scoped context is fixed for one run, so it is
absorbed into the hook closures. -/
structure SpecModifier where
  identifier : String
  pre_process_cart : Cart → Cart
  pre_process_cart_item : CartItem → CartItem
  process_cart_item : CartItem → CartItem
  process_cart : Cart → Int × List ExtraRow
  post_process_cart : Cart → Int

/-- Modelled from the spec: the observable hook invocations of one
pipeline run, tagged with the invoked modifier identifier. -/
inductive Event where
  | preProcessCart (id : String)
  | preProcessCartItem (id : String)
  | processCartItem (id : String)
  | setSubtotal
  | processCart (id : String)
  | postProcessCart (id : String)
deriving DecidableEq, Repr

/-- Whether an event is a post_process_cart invocation. -/
def Event.isPost : Event → Bool
  | Event.postProcessCart _ => true
  | _ => false

/-- Modelled from the spec: run one pipeline phase over the modifier
list, threading the state through step and recording one event per
modifier in invocation order. -/
def runHooks {α : Type} (step : α → SpecModifier → α) (ev : SpecModifier → Event) :
    List SpecModifier → α → α × List Event
  | [], a => (a, [])
  | m :: ms, a =>
    let r := runHooks step ev ms (step a m)
    (r.1, ev m :: r.2)

/-- Modelled from the spec: run a per-item phase, item-major as in
spec section 4.4 steps 2 and 3: for each item, every modifier is
applied in order. -/
def runItemsPhase (step : CartItem → SpecModifier → CartItem)
    (ev : SpecModifier → Event) (M : List SpecModifier) :
    List CartItem → List CartItem × List Event
  | [] => ([], [])
  | it :: its =>
    let r := runHooks step ev M it
    let rs := runItemsPhase step ev M its
    (r.1 :: rs.1, r.2 ++ rs.2)

/-- Sum of the line totals of a list of cart items. -/
def sumLineTotals (items : List CartItem) : Int :=
  (items.map CartItem.line_total).sum

/-- Modelled from the spec: phase-1 step, m.preProcessCart(cart). -/
def preCartStep (c : Cart) (m : SpecModifier) : Cart :=
  m.pre_process_cart c

/-- Modelled from the spec: phase-2 step, m.preProcessCartItem(item). -/
def preItemStep (it : CartItem) (m : SpecModifier) : CartItem :=
  m.pre_process_cart_item it

/-- Modelled from the spec: phase-3 step, m.processCartItem(item). -/
def itemStep (it : CartItem) (m : SpecModifier) : CartItem :=
  m.process_cart_item it

/-- Modelled from the spec: phase-5 step, m.processCart(cart): the
modifier reads the cart, sets the new total and appends its extra
rows. -/
def procCartStep (c : Cart) (m : SpecModifier) : Cart :=
  let r := m.process_cart c
  { c with total := r.1, extra_rows := c.extra_rows ++ r.2 }

/-- Modelled from the spec: phase-6 step, m.postProcessCart(cart):
the modifier reacts to the settled cart by adjusting the total. -/
def postCartStep (c : Cart) (m : SpecModifier) : Cart :=
  { c with total := m.post_process_cart c }

/-- Modelled from the spec: step 1 of Pipeline.run, the forward
preProcessCart pass over the modifier list. -/
def pipeStage1 (M : List SpecModifier) (cart : Cart) : Cart × List Event :=
  runHooks preCartStep (fun m => Event.preProcessCart m.identifier) M cart

/-- Modelled from the spec: step 2 of Pipeline.run, the item-major
preProcessCartItem pass over the items left by step 1. -/
def pipeStage2 (M : List SpecModifier) (cart : Cart) : List CartItem × List Event :=
  runItemsPhase preItemStep (fun m => Event.preProcessCartItem m.identifier)
    M ((pipeStage1 M cart).1).items

/-- Modelled from the spec: the cart after step 2 of Pipeline.run. -/
def pipeCart2 (M : List SpecModifier) (cart : Cart) : Cart :=
  { (pipeStage1 M cart).1 with items := (pipeStage2 M cart).1 }

/-- Modelled from the spec: step 3 of Pipeline.run, the item-major
processCartItem pass. -/
def pipeStage3 (M : List SpecModifier) (cart : Cart) : List CartItem × List Event :=
  runItemsPhase itemStep (fun m => Event.processCartItem m.identifier)
    M (pipeCart2 M cart).items

/-- Modelled from the spec: the cart after step 4 of Pipeline.run,
with the subtotal derived as the sum of the item line totals. -/
def pipeCart4 (M : List SpecModifier) (cart : Cart) : Cart :=
  { pipeCart2 M cart with
    items := (pipeStage3 M cart).1
    subtotal := sumLineTotals (pipeStage3 M cart).1 }

/-- Modelled from the spec: step 5 of Pipeline.run, the forward
processCart pass starting from the step-4 cart. -/
def pipeStage5 (M : List SpecModifier) (cart : Cart) : Cart × List Event :=
  runHooks procCartStep (fun m => Event.processCart m.identifier) M (pipeCart4 M cart)

/-- Modelled from the spec: step 6 of Pipeline.run, the
postProcessCart pass over the reversed modifier list. -/
def pipeStage6 (M : List SpecModifier) (cart : Cart) : Cart × List Event :=
  runHooks postCartStep (fun m => Event.postProcessCart m.identifier)
    M.reverse (pipeStage5 M cart).1

/-- Modelled from the spec: Pipeline.run of spec section 4.4, the
six-step protocol: forward pre-cart pass, per-item pre pass, per-item
process pass, subtotal derivation, forward process-cart pass, reverse
post-process pass.  Returns the final cart and the invocation trace
in execution order. -/
def runPipeline (M : List SpecModifier) (cart : Cart) : Cart × List Event :=
  ((pipeStage6 M cart).1,
   (pipeStage1 M cart).2 ++ ((pipeStage2 M cart).2 ++ ((pipeStage3 M cart).2
     ++ (Event.setSubtotal :: ((pipeStage5 M cart).2 ++ (pipeStage6 M cart).2)))))

/-- A sample modifier seeding line totals at 10 per unit, used to
instantiate universally quantified pipeline theorems. -/
def specModA : SpecModifier where
  identifier := "a"
  pre_process_cart := fun c => c
  pre_process_cart_item := fun it => it
  process_cart_item := fun it => { it with line_total := (it.quantity : Int) * 10 }
  process_cart := fun c => (c.subtotal, [])
  post_process_cart := fun c => c.total

/-- A sample modifier adding a flat fee of 5 to the total, used to
instantiate universally quantified pipeline theorems. -/
def specModB : SpecModifier where
  identifier := "b"
  pre_process_cart := fun c => c
  pre_process_cart_item := fun it => it
  process_cart_item := fun it => it
  process_cart := fun c => (c.total + 5, [{ label := "fee", amount := 5 }])
  post_process_cart := fun c => c.total

/-- A sample cart with one item of quantity 2, used to instantiate
universally quantified theorems. -/
def sampleCart : Cart :=
  { items := [{ product := "p", quantity := 2 }] }

/-- A sample payment modifier instance, used to instantiate
universally quantified theorems. -/
def samplePayment : PaymentModifier :=
  { identifier := "stripe" }

/-- A sample shipping modifier instance, used to instantiate
universally quantified theorems. -/
def sampleShipping : ShippingModifier :=
  { identifier := "dhl" }

/-- A sample rendering context binding only the key locale, used to
instantiate universally quantified theorems. -/
def sampleContext : Context :=
  fun k => if k = "locale" then some (CtxVal.str "en") else none

/-- A sample rendering context in which both namespaced sub-mappings
are already present, used to instantiate universally quantified
theorems. -/
def sampleContextFull : Context :=
  fun k =>
    if k = "payment_modifiers" then some (CtxVal.dict [("x", "y")])
    else if k = "shipping_modifiers" then some (CtxVal.dict [("u", "v")])
    else none

end DjangoShop

namespace DjangoShop

/-- Claim C1: for every PaymentModifier (resp. ShippingModifier) and
every cart, is_active returns true iff cart.extra contains the key
payment_modifier (resp. shipping_modifier) bound to the modifier
identifier, and returns false when the key is absent or bound to any
other value. -/
theorem is_active_iff (p : PaymentModifier) (s : ShippingModifier) (cart : Cart) :
    (p.is_active cart = true ↔ dictGet cart.extra "payment_modifier" = some p.identifier) ∧
    (s.is_active cart = true ↔ dictGet cart.extra "shipping_modifier" = some s.identifier) ∧
    (dictGet cart.extra "payment_modifier" ≠ some p.identifier → p.is_active cart = false) ∧
    (dictGet cart.extra "shipping_modifier" ≠ some s.identifier → s.is_active cart = false) := by
  unfold PaymentModifier.is_active ShippingModifier.is_active pyEqOpt
  refine ⟨?_, ?_, ?_, ?_⟩ <;>
    rcases hp : dictGet cart.extra "payment_modifier" with _ | v <;>
    rcases hs : dictGet cart.extra "shipping_modifier" with _ | w <;>
    simp_all [beq_iff_eq]

/-- Concrete instantiation of is_active_iff: with the key present and
bound to the identifier, is_active is true; absence gives false. -/
theorem is_active_iff_witness :
    ({ identifier := "stripe" : PaymentModifier }.is_active
      { extra := [("payment_modifier", "stripe")] } = true) ∧
    ({ identifier := "dhl" : ShippingModifier }.is_active { extra := [] } = false) := by
  constructor
  · exact (is_active_iff { identifier := "stripe" } { identifier := "dhl" }
      { extra := [("payment_modifier", "stripe")] }).1.mpr (by decide)
  · exact (is_active_iff { identifier := "stripe" } { identifier := "dhl" }
      { extra := [] }).2.2.2 (by decide)

/-- Claim C2: get_choice on the abstract PaymentModifier and
ShippingModifier bases always raises and never returns a value. -/
theorem get_choice_raises (p : PaymentModifier) (s : ShippingModifier) :
    (∀ v, p.get_choice ≠ Except.ok v) ∧ (∀ v, s.get_choice ≠ Except.ok v) := by
  constructor <;> intro v h <;>
    simp [PaymentModifier.get_choice, ShippingModifier.get_choice] at h

/-- Concrete instantiation of get_choice_raises at sample modifiers
and a sample return value. -/
theorem get_choice_raises_witness :
    ({ identifier := "pay" : PaymentModifier }.get_choice ≠ Except.ok ("v", "l")) ∧
    ({ identifier := "ship" : ShippingModifier }.get_choice ≠ Except.ok ("v", "l")) :=
  ⟨(get_choice_raises { identifier := "pay" } { identifier := "ship" }).1 ("v", "l"),
   (get_choice_raises { identifier := "pay" } { identifier := "ship" }).2 ("v", "l")⟩

/-- Claim C3, counterexample: a modifier class that predefines a
class-level identifier attribute (here the value custom on a class
named Foo) and is constructed with identifier None receives that
attribute, not the lower-cased class name, because the getattr
fallback in BaseCartModifier.__init__ prefers the existing class
attribute. -/
theorem init_identifier_counterexample :
    init_identifier none (some "custom") "Foo" = "custom" ∧
    init_identifier none (some "custom") "Foo" ≠ strLower "Foo" :=
  ⟨rfl, by decide⟩

/-- Claim C3, amended: constructing a modifier without supplying an
identifier yields the implementing type's name lower-cased, provided
the class does not itself predefine an identifier attribute (if it
does, that attribute is used instead). -/
theorem init_identifier_default (class_name : String) :
    init_identifier none none class_name = strLower class_name :=
  rfl

/-- Claim C5: the default process_cart_item invokes
add_extra_cart_item_row exactly once and performs no other action,
and the default process_cart invokes add_extra_cart_row exactly once
and performs no other action; with the default add-row hooks neither
modifies any cart, item or total field. -/
theorem default_process_hooks (cart_item : CartItem) (cart : Cart) (request : Request) :
    BaseCartModifier.process_cart_item BaseCartModifier.add_extra_cart_item_row
        cart_item request = (cart_item, [HookCall.addExtraCartItemRow]) ∧
    BaseCartModifier.process_cart BaseCartModifier.add_extra_cart_row
        cart request = (cart, [HookCall.addExtraCartRow]) ∧
    (∀ f : CartItem → Request → CartItem × List HookCall,
      BaseCartModifier.process_cart_item f cart_item request
        = ((f cart_item request).1, HookCall.addExtraCartItemRow :: (f cart_item request).2)) ∧
    (∀ g : Cart → Request → Cart × List HookCall,
      BaseCartModifier.process_cart g cart request
        = ((g cart request).1, HookCall.addExtraCartRow :: (g cart request).2)) :=
  ⟨rfl, rfl, fun f => rfl, fun g => rfl⟩

/-- Claim C8: the default arrange_watch_items and arrange_cart_items
are the identity on the item list. -/
theorem arrange_defaults_identity {α : Type} (watch_items cart_items : List α)
    (request : Request) :
    BaseCartModifier.arrange_watch_items watch_items request = watch_items ∧
    BaseCartModifier.arrange_cart_items cart_items request = cart_items :=
  ⟨rfl, rfl⟩

/-- Claim C9: is_disabled of a PaymentModifier or ShippingModifier
that does not override it returns false for every cart. -/
theorem is_disabled_default_false (p : PaymentModifier) (s : ShippingModifier)
    (cart : Cart) :
    p.is_disabled cart = false ∧ s.is_disabled cart = false :=
  ⟨rfl, rfl⟩

/-- Claim C4: update_render_context is idempotent on both modifier
roles: applying it twice yields the same context (in particular the
namespaced sub-mapping) as applying it once. -/
theorem update_render_context_idem (p : PaymentModifier) (s : ShippingModifier)
    (context : Context) :
    p.update_render_context (p.update_render_context context)
      = p.update_render_context context ∧
    s.update_render_context (s.update_render_context context)
      = s.update_render_context context := by
  constructor
  · unfold PaymentModifier.update_render_context
    by_cases h : (context "payment_modifiers").isSome
    · simp [h]
    · simp [h]
  · unfold ShippingModifier.update_render_context
    by_cases h : (context "shipping_modifiers").isSome
    · simp [h]
    · simp [h]

/-- Concrete instantiation of update_render_context_idem, with an
evaluation of the first call on a context lacking the namespaced
keys. -/
theorem update_render_context_idem_witness :
    (samplePayment.update_render_context sampleContext) "payment_modifiers"
      = some (CtxVal.dict []) ∧
    samplePayment.update_render_context (samplePayment.update_render_context sampleContext)
      = samplePayment.update_render_context sampleContext ∧
    sampleShipping.update_render_context (sampleShipping.update_render_context sampleContext)
      = sampleShipping.update_render_context sampleContext :=
  ⟨rfl,
   (update_render_context_idem samplePayment sampleShipping sampleContext).1,
   (update_render_context_idem samplePayment sampleShipping sampleContext).2⟩

/-- Claim C10: update_render_context touches at most the namespaced
key: every other key keeps its prior value, and a pre-existing value
of the namespaced key is never replaced. -/
theorem update_render_context_frame (p : PaymentModifier) (s : ShippingModifier)
    (context : Context) (k : String) (v : CtxVal) :
    (k ≠ "payment_modifiers" → p.update_render_context context k = context k) ∧
    (k ≠ "shipping_modifiers" → s.update_render_context context k = context k) ∧
    (context "payment_modifiers" = some v →
      p.update_render_context context "payment_modifiers" = some v) ∧
    (context "shipping_modifiers" = some v →
      s.update_render_context context "shipping_modifiers" = some v) := by
  refine ⟨?_, ?_, ?_, ?_⟩
  · intro hk
    unfold PaymentModifier.update_render_context
    by_cases h : (context "payment_modifiers").isSome
    · simp [h]
    · simp [h, hk]
  · intro hk
    unfold ShippingModifier.update_render_context
    by_cases h : (context "shipping_modifiers").isSome
    · simp [h]
    · simp [h, hk]
  · intro hv
    unfold PaymentModifier.update_render_context
    simp [hv]
  · intro hv
    unfold ShippingModifier.update_render_context
    simp [hv]

/-- Concrete instantiation of update_render_context_frame: an
unrelated key keeps its value, and an already-present namespaced
sub-mapping is not overwritten. -/
theorem update_render_context_frame_witness :
    samplePayment.update_render_context sampleContext "locale" = sampleContext "locale" ∧
    sampleShipping.update_render_context sampleContext "locale" = sampleContext "locale" ∧
    samplePayment.update_render_context sampleContextFull "payment_modifiers"
      = some (CtxVal.dict [("x", "y")]) ∧
    sampleShipping.update_render_context sampleContextFull "shipping_modifiers"
      = some (CtxVal.dict [("u", "v")]) := by
  refine ⟨?_, ?_, ?_, ?_⟩
  · exact (update_render_context_frame samplePayment sampleShipping sampleContext
      "locale" (CtxVal.str "en")).1 (by decide)
  · exact (update_render_context_frame samplePayment sampleShipping sampleContext
      "locale" (CtxVal.str "en")).2.1 (by decide)
  · exact (update_render_context_frame samplePayment sampleShipping sampleContextFull
      "locale" (CtxVal.dict [("x", "y")])).2.2.1 rfl
  · exact (update_render_context_frame samplePayment sampleShipping sampleContextFull
      "locale" (CtxVal.dict [("u", "v")])).2.2.2 rfl

/-- The trace of one pipeline phase lists one event per modifier in
list order. -/
theorem runHooks_trace {α : Type} (step : α → SpecModifier → α)
    (ev : SpecModifier → Event) :
    ∀ (M : List SpecModifier) (a : α), (runHooks step ev M a).2 = M.map ev := by
  intro M
  induction M with
  | nil => intro a; rfl
  | cons m ms ih => intro a; simp [runHooks, ih]

/-- Every event emitted by a per-item phase is the phase event of
some modifier of the list. -/
theorem runItemsPhase_trace_mem (step : CartItem → SpecModifier → CartItem)
    (ev : SpecModifier → Event) (M : List SpecModifier) :
    ∀ (its : List CartItem) (e : Event),
      e ∈ (runItemsPhase step ev M its).2 → ∃ m, m ∈ M ∧ e = ev m := by
  intro its
  induction its with
  | nil => intro e he; simp [runItemsPhase] at he
  | cons it its ih =>
    intro e he
    simp only [runItemsPhase] at he
    rcases List.mem_append.1 he with h | h
    · rw [runHooks_trace] at h
      obtain ⟨m, hm, rfl⟩ := List.mem_map.1 h
      exact ⟨m, hm, rfl⟩
    · exact ih e h

/-- The processCart phase leaves the items and the subtotal of the
cart untouched: each step only rewrites the total and appends extra
rows. -/
theorem runHooks_proc_preserves (ev : SpecModifier → Event) :
    ∀ (M : List SpecModifier) (c : Cart),
      ((runHooks procCartStep ev M c).1).items = c.items ∧
      ((runHooks procCartStep ev M c).1).subtotal = c.subtotal := by
  intro M
  induction M with
  | nil => intro c; exact ⟨rfl, rfl⟩
  | cons m ms ih =>
    intro c
    have h := ih (procCartStep c m)
    simp only [runHooks]
    exact ⟨h.1, h.2⟩

/-- The postProcessCart phase leaves the items and the subtotal of
the cart untouched: each step only rewrites the total. -/
theorem runHooks_post_preserves (ev : SpecModifier → Event) :
    ∀ (M : List SpecModifier) (c : Cart),
      ((runHooks postCartStep ev M c).1).items = c.items ∧
      ((runHooks postCartStep ev M c).1).subtotal = c.subtotal := by
  intro M
  induction M with
  | nil => intro c; exact ⟨rfl, rfl⟩
  | cons m ms ih =>
    intro c
    have h := ih (postCartStep c m)
    simp only [runHooks]
    exact ⟨h.1, h.2⟩

/-- Claim C6: after Pipeline.run, the cart subtotal equals the sum of
the item line totals, however many modifiers changed individual line
totals: the subtotal is derived after the per-item phases, and the
later phases only rewrite the total and the extra rows. -/
theorem run_subtotal_eq_sum (M : List SpecModifier) (cart : Cart) :
    ((runPipeline M cart).1).subtotal
      = sumLineTotals ((runPipeline M cart).1).items := by
  have h5 := runHooks_proc_preserves (fun m => Event.processCart m.identifier)
    M (pipeCart4 M cart)
  have h6 := runHooks_post_preserves (fun m => Event.postProcessCart m.identifier)
    M.reverse (pipeStage5 M cart).1
  show ((pipeStage6 M cart).1).subtotal = sumLineTotals ((pipeStage6 M cart).1).items
  unfold pipeStage6
  rw [h6.1, h6.2]
  show ((pipeStage5 M cart).1).subtotal = sumLineTotals ((pipeStage5 M cart).1).items
  unfold pipeStage5
  rw [h5.1, h5.2]
  rfl

/-- Concrete instantiation of run_subtotal_eq_sum, with the subtotal
evaluated on a two-modifier pipeline over the sample cart. -/
theorem run_subtotal_eq_sum_witness :
    ((runPipeline [specModA, specModB] sampleCart).1).subtotal = 20 ∧
    ((runPipeline [specModA, specModB] sampleCart).1).subtotal
      = sumLineTotals ((runPipeline [specModA, specModB] sampleCart).1).items :=
  ⟨by decide, run_subtotal_eq_sum [specModA, specModB] sampleCart⟩

/-- Claim C7: the trace of Pipeline.run ends with the postProcessCart
events in the exact reverse of the configured modifier order, and
every processCart event (one per modifier) occurs strictly before
that reverse pass. -/
theorem run_post_process_reverse (M : List SpecModifier) (cart : Cart) :
    ∃ t, (runPipeline M cart).2
        = t ++ M.reverse.map (fun m => Event.postProcessCart m.identifier) ∧
      (∀ m ∈ M, Event.processCart m.identifier ∈ t) ∧
      (∀ e ∈ t, e.isPost = false) := by
  have h1 : (pipeStage1 M cart).2
      = M.map (fun m => Event.preProcessCart m.identifier) := by
    unfold pipeStage1; exact runHooks_trace _ _ _ _
  have h5 : (pipeStage5 M cart).2
      = M.map (fun m => Event.processCart m.identifier) := by
    unfold pipeStage5; exact runHooks_trace _ _ _ _
  have h6 : (pipeStage6 M cart).2
      = M.reverse.map (fun m => Event.postProcessCart m.identifier) := by
    unfold pipeStage6; exact runHooks_trace _ _ _ _
  refine ⟨(pipeStage1 M cart).2 ++ ((pipeStage2 M cart).2 ++ ((pipeStage3 M cart).2
      ++ (Event.setSubtotal :: (pipeStage5 M cart).2))), ?_, ?_, ?_⟩
  · show (pipeStage1 M cart).2 ++ ((pipeStage2 M cart).2 ++ ((pipeStage3 M cart).2
      ++ (Event.setSubtotal :: ((pipeStage5 M cart).2 ++ (pipeStage6 M cart).2)))) = _
    rw [h6]
    simp [List.append_assoc]
  · intro m hm
    refine List.mem_append_right _ (List.mem_append_right _ (List.mem_append_right _
      (List.mem_cons_of_mem _ ?_)))
    rw [h5]
    exact List.mem_map_of_mem _ hm
  · intro e he
    rcases List.mem_append.1 he with h | h
    · rw [h1] at h
      obtain ⟨m, _, rfl⟩ := List.mem_map.1 h
      rfl
    rcases List.mem_append.1 h with h | h
    · obtain ⟨m, _, rfl⟩ := runItemsPhase_trace_mem _ _ M _ e h
      rfl
    rcases List.mem_append.1 h with h | h
    · obtain ⟨m, _, rfl⟩ := runItemsPhase_trace_mem _ _ M _ e h
      rfl
    rcases List.mem_cons.1 h with h | h
    · subst h; rfl
    · rw [h5] at h
      obtain ⟨m, _, rfl⟩ := List.mem_map.1 h
      rfl

/-- Concrete instantiation of run_post_process_reverse, with the full
trace of a two-modifier pipeline evaluated on the sample cart: the
post events come last and in reverse order. -/
theorem run_post_process_reverse_witness :
    (runPipeline [specModA, specModB] sampleCart).2
      = [Event.preProcessCart "a", Event.preProcessCart "b",
         Event.preProcessCartItem "a", Event.preProcessCartItem "b",
         Event.processCartItem "a", Event.processCartItem "b",
         Event.setSubtotal,
         Event.processCart "a", Event.processCart "b",
         Event.postProcessCart "b", Event.postProcessCart "a"] ∧
    (∃ t, (runPipeline [specModA, specModB] sampleCart).2
        = t ++ [specModA, specModB].reverse.map
            (fun m => Event.postProcessCart m.identifier) ∧
      (∀ m ∈ [specModA, specModB], Event.processCart m.identifier ∈ t) ∧
      (∀ e ∈ t, e.isPost = false)) :=
  ⟨by decide, run_post_process_reverse [specModA, specModB] sampleCart⟩

end DjangoShop
